import Mathlib

/-!
Verification development for the fusion360-mcp-server repository.

The development shallowly embeds the command-dispatch core
(`fusion360_addon/server/command_handler.py`), the per-client framing loop
(`fusion360_addon/server/socket_server.py`), the connection manager
(`src/fusion360_mcp/fusion360_connection.py`) and the script-generator
lookup helpers (`src/fusion360_mcp/script_generator.py`).

Modelling conventions:
* JSON values are the inductive `Value`; Python dictionaries holding JSON
  data are association lists in insertion order.
* Python floats are modelled as exact rationals (`ℚ`).
* The Fusion 360 host API is a black box (spec section 6).  Its state is the
  `Host` record; a host API call that raises is modelled by the
  `Host.fault` field, and `exec` of caller code by the `Host.codeRuns`
  oracle.  Exception texts produced by the Python runtime itself
  (attribute errors, keyword-binding errors) are approximated by fixed
  strings; no claim depends on their exact wording.
* `json.loads`-based framing is modelled by the character scanner
  `flatJsonComplete`, which accepts exactly the complete flat JSON objects
  (with their arrays/strings) that the wire protocol carries, and rejects
  every strict prefix and every buffer with trailing non-whitespace.
-/

namespace F360

/-- JSON-like values exchanged between the MCP service and the add-in. -/
inductive Value where
  | str (s : String)
  | num (q : ℚ)
  | bool (b : Bool)
  | null
  | arr (vs : List Value)
  | obj (kvs : List (String × Value))

/-- A Python dict of keyword parameters, in insertion order. -/
abbrev Params := List (String × Value)

/-- A handler result dictionary, in insertion order. -/
abbrev ResultMap := List (String × Value)

/-- `d.get(key)` on a parameter dict. -/
def getParam (params : Params) (key : String) : Option Value :=
  (List.find? (fun kv => kv.1 == key) params).map (fun kv => kv.2)

/-- `d.get(key, default)` on a parameter dict. -/
def getParamD (params : Params) (key : String) (d : Value) : Value :=
  (getParam params key).getD d

/-- Python `v == "s"` where `v` is an arbitrary JSON value: true only for
the equal string (comparison of a string with any other runtime type is
`False` in Python). -/
def pyEqStr (v : Value) (s : String) : Bool :=
  match v with
  | .str t => t == s
  | _ => false

/-- The `{status, result, message}` wire response produced by the
dispatcher (`command_handler.py`): a dict with a `status` key and exactly
one of `result` / `message`. -/
structure Response where
  status : String
  result : Option Value
  message : Option String

/-- `{"status": "success", "result": result}` (line 60 of
`command_handler.py`). -/
def mkSuccess (res : ResultMap) : Response :=
  { status := "success", result := some (.obj res), message := none }

/-- `{"status": "error", "message": msg}` (lines 30, 64, 66 of
`command_handler.py`). -/
def mkError (msg : String) : Response :=
  { status := "error", result := none, message := some msg }

/-! ## Geometry and host-session state (the external collaborator of
spec section 6, as observed through the call surface the handlers use) -/

/-- A 3D point with exact rational coordinates. -/
structure Point where
  x : ℚ
  y : ℚ
  z : ℚ
deriving DecidableEq

/-- An axis-aligned bounding box (`boundingBox` with `minPoint`/`maxPoint`). -/
structure Box where
  minP : Point
  maxP : Point
deriving DecidableEq

/-- A body edge, observed through its bounding box. -/
structure Edge where
  bbox : Box
deriving DecidableEq

/-- A body face, observed through its bounding box. -/
structure Face where
  bbox : Box
deriving DecidableEq

/-- A BRep body as observed by the handlers. -/
structure Body where
  name : String
  volume : ℚ
  area : ℚ
  material : Option String
  isVisible : Bool
  bbox : Box
  edges : List Edge
  faces : List Face
  vertices : Nat
deriving DecidableEq

/-- `adsk.fusion.FeatureOperations` members used by extrude/revolve. -/
inductive FeatureOperation where
  | NewBody
  | Join
  | Cut
  | Intersect
deriving DecidableEq

/-- A created feature, recording which operation it was created with
(`none` for features without an operation argument). -/
structure Feature where
  name : String
  op : Option FeatureOperation
deriving DecidableEq

/-- A sketch as observed by the handlers. -/
structure Sketch where
  name : String
  isVisible : Bool
  profiles : Nat
  curves : Nat
  plane : Option String
deriving DecidableEq

/-- The root component with its child collections. -/
structure Component where
  name : String
  sketches : List Sketch
  bodies : List Body
  features : List Feature
  occurrences : Nat
deriving DecidableEq

/-- The viewport camera as read by `_get_camera_info`. -/
structure Camera where
  eye : Point
  target : Point
  upVector : Point
  cameraType : Nat
  isSmoothTransition : Bool
deriving DecidableEq

/-- The active design (`app.activeProduct`). -/
structure Design where
  name : String
  productType : String
  rootComponent : Component
  timeline : Nat
deriving DecidableEq

/-- The live host session the dispatcher mutates.  `fault` models a host
API call raising with the given message; `codeRuns` models the outcome of
`exec`-ing caller-supplied code in `execute_code`. -/
structure Host where
  design : Option Design
  camera : Option Camera
  fault : Option String
  codeRuns : String → Except String String

/-- Succeeds with the active design; raises the Python attribute error a
`None` product produces when `design.rootComponent` is evaluated. -/
def getDesign (st : Host) : Except String Design :=
  match st.design with
  | some d => .ok d
  | none => .error "NoneType object has no attribute rootComponent"

/-- A host API call site: raises when the host is faulted. -/
def checkFault (st : Host) : Except String Unit :=
  match st.fault with
  | some m => .error m
  | none => .ok ()

/-- `l.item(i)`: the host collection accessor, failing on an
out-of-range index. -/
def itemAt (l : List α) (i : Nat) (msg : String) : Except String α :=
  match l[i]? with
  | some a => .ok a
  | none => .error msg

/-- Replaces the root component of the active design. -/
def setComponent (st : Host) (d : Design) (comp : Component) : Host :=
  { st with design := some { d with rootComponent := comp } }

/-- Prefix every escaping exception message, modelling the
`except Exception as e: raise Exception(f"<prefix>{str(e)}")` pattern each
geometry handler uses. -/
def wrapErr (pre : String) : Except String α → Except String α
  | .ok a => .ok a
  | .error m => .error (pre ++ m)

/-- Extracts a numeric argument; anything else models the Python/host
`TypeError` raised when the value reaches arithmetic or
`ValueInput.createByReal`. -/
def asNum (v : Value) : Except String ℚ :=
  match v with
  | .num q => .ok q
  | _ => .error "unsupported operand type for numeric argument"

/-- Extracts a collection index; a non-integral or negative value models
the host error raised by `item`. -/
def asIndex (v : Value) : Except String Nat :=
  match v with
  | .num q => if q.den = 1 ∧ 0 ≤ q.num then .ok q.num.toNat else .error "invalid index"
  | _ => .error "invalid index"

/-! ## Keyword-argument binding

`_execute_command_internal` invokes `handler(**params)`; CPython raises a
`TypeError` for an unexpected or missing keyword before the handler body
runs.  The exact CPython wording is approximated. -/

/-- Rejects parameters not in the handler signature. -/
def checkKeys (fname : String) (allowed : List String) (params : Params) :
    Except String Unit :=
  match List.find? (fun kv => !(allowed.contains kv.1)) params with
  | some kv => .error (fname ++ "() got an unexpected keyword argument " ++ kv.1)
  | none => .ok ()

/-- A required keyword argument. -/
def reqParam (fname key : String) (params : Params) : Except String Value :=
  match getParam params key with
  | some v => .ok v
  | none => .error (fname ++ "() missing 1 required positional argument: " ++ key)

/-! ## The handlers of `CommandHandler` (`command_handler.py`) -/

/-- `_get_camera_info` (lines 580-594): reads the viewport camera, its own
`except` turning any failure into `{"error": ...}`. -/
def get_camera_info (st : Host) : Value :=
  match st.camera with
  | none => .obj [("error", .str "Could not get camera info")]
  | some cam =>
      .obj [("eye", .arr [.num cam.eye.x, .num cam.eye.y, .num cam.eye.z]),
            ("target", .arr [.num cam.target.x, .num cam.target.y, .num cam.target.z]),
            ("up_vector", .arr [.num cam.upVector.x, .num cam.upVector.y, .num cam.upVector.z]),
            ("camera_type", .num cam.cameraType),
            ("is_smooth_transition", .bool cam.isSmoothTransition)]

/-- The per-body entry built by `get_scene_info` (lines 93-103). -/
def bodyInfo (b : Body) : Value :=
  .obj [("name", .str b.name),
        ("volume", .num b.volume),
        ("area", .num b.area),
        ("material", .str (b.material.getD "None")),
        ("is_visible", .bool b.isVisible)]

/-- `get_scene_info` (lines 68-108).  The whole body sits inside
`try/except`, so a missing design or any host API failure becomes an
`{"error": ...}` mapping rather than an exception. -/
def get_scene_info (st : Host) : ResultMap :=
  match st.design with
  | none => [("error", .str "No active design")]
  | some d =>
      match st.fault with
      | some m => [("error", .str m)]
      | none =>
          [("design_name", .str d.name),
           ("design_type", .str d.productType),
           ("root_component",
             .obj [("name", .str d.rootComponent.name),
                   ("bodies_count", .num d.rootComponent.bodies.length),
                   ("sketches_count", .num d.rootComponent.sketches.length),
                   ("features_count", .num d.rootComponent.features.length),
                   ("occurrences_count", .num d.rootComponent.occurrences)]),
           ("timeline_count", .num d.timeline),
           ("camera", get_camera_info st),
           ("bodies", .arr (d.rootComponent.bodies.map bodyInfo))]

/-- `get_object_info` (lines 110-157): looks the name up among bodies then
sketches; all failures are caught and become `{"error": ...}`. -/
def get_object_info (st : Host) (name : Value) : ResultMap :=
  match st.design with
  | none => [("error", .str "No active design")]
  | some d =>
      match st.fault with
      | some m => [("error", .str m)]
      | none =>
          match List.find? (fun b => pyEqStr name b.name) d.rootComponent.bodies with
          | some b =>
              [("name", name), ("found", .bool true), ("type", .str "body"),
               ("volume", .num b.volume), ("area", .num b.area),
               ("material", .str (b.material.getD "None")),
               ("is_visible", .bool b.isVisible),
               ("faces_count", .num b.faces.length),
               ("edges_count", .num b.edges.length),
               ("vertices_count", .num b.vertices)]
          | none =>
              match List.find? (fun s => pyEqStr name s.name) d.rootComponent.sketches with
              | some s =>
                  [("name", name), ("found", .bool true), ("type", .str "sketch"),
                   ("is_visible", .bool s.isVisible),
                   ("profile_count", .num s.profiles),
                   ("curve_count", .num s.curves),
                   ("plane", .str (s.plane.getD "Unknown"))]
              | none => [("name", name), ("found", .bool false)]

/-- `execute_code` (lines 159-183): `exec`s the caller code (modelled by
the `codeRuns` oracle), wrapping any raise as a code-execution error. -/
def execute_code (st : Host) (code : Value) : Except String (ResultMap × Host) :=
  match code with
  | .str s =>
      match st.codeRuns s with
      | .ok out => .ok ([("executed", .bool true), ("result", .str out)], st)
      | .error m => .error ("Code execution error: " ++ m)
  | _ => .error "Code execution error: exec argument must be a string"

/-- The construction-plane lookup `plane_map.get(plane, xy)` used by
`create_sketch` (lines 192-198) and `mirror` (lines 554-560): any value
outside the three names falls back to the XY plane. -/
def planeNameOf (v : Value) : String :=
  match v with
  | .str "xy" => "xy"
  | .str "yz" => "yz"
  | .str "xz" => "xz"
  | _ => "xy"

/-- `create_sketch` (lines 185-210): adds a sketch on the selected plane.
The host names the sketch; the model uses `Sketch<n>`. -/
def create_sketch (st : Host) (plane : Value) : Except String (ResultMap × Host) :=
  wrapErr "Failed to create sketch: " (do
    let d ← getDesign st
    let comp := d.rootComponent
    let _ ← checkFault st
    let sname := "Sketch" ++ toString (comp.sketches.length + 1)
    let sk : Sketch := { name := sname, isVisible := true, profiles := 0,
                         curves := 0, plane := some (planeNameOf plane) }
    let st' := setComponent st d { comp with sketches := comp.sketches ++ [sk] }
    pure ([("sketch_name", .str sname), ("plane", plane), ("success", .bool true)], st'))

/-- `draw_rectangle` (lines 212-239): draws into the *last* sketch;
raises (wrapped) when no sketch exists. -/
def draw_rectangle (st : Host) (width height ox oy oz : Value) :
    Except String (ResultMap × Host) :=
  wrapErr "Failed to draw rectangle: " (do
    let d ← getDesign st
    let comp := d.rootComponent
    if comp.sketches.isEmpty then
      throw "No sketch available. Create a sketch first."
    let sk ← itemAt comp.sketches (comp.sketches.length - 1) "invalid sketch index"
    let _ ← asNum ox
    let _ ← asNum oy
    let _ ← asNum oz
    let _ ← asNum width
    let _ ← asNum height
    let _ ← checkFault st
    pure ([("rectangle_created", .bool true), ("width", width),
           ("height", height), ("sketch", .str sk.name)], st))

/-- `draw_circle` (lines 241-267). -/
def draw_circle (st : Host) (radius cx cy cz : Value) :
    Except String (ResultMap × Host) :=
  wrapErr "Failed to draw circle: " (do
    let d ← getDesign st
    let comp := d.rootComponent
    if comp.sketches.isEmpty then
      throw "No sketch available. Create a sketch first."
    let sk ← itemAt comp.sketches (comp.sketches.length - 1) "invalid sketch index"
    let _ ← asNum cx
    let _ ← asNum cy
    let _ ← asNum cz
    let _ ← asNum radius
    let _ ← checkFault st
    pure ([("circle_created", .bool true), ("radius", radius),
           ("center", .arr [cx, cy, cz]), ("sketch", .str sk.name)], st))

/-- `draw_line` (lines 269-296). -/
def draw_line (st : Host) (sx sy ex ey sz ez : Value) :
    Except String (ResultMap × Host) :=
  wrapErr "Failed to draw line: " (do
    let d ← getDesign st
    let comp := d.rootComponent
    if comp.sketches.isEmpty then
      throw "No sketch available. Create a sketch first."
    let sk ← itemAt comp.sketches (comp.sketches.length - 1) "invalid sketch index"
    let _ ← asNum sx
    let _ ← asNum sy
    let _ ← asNum sz
    let _ ← asNum ex
    let _ ← asNum ey
    let _ ← asNum ez
    let _ ← checkFault st
    pure ([("line_created", .bool true), ("start", .arr [sx, sy, sz]),
           ("end", .arr [ex, ey, ez]), ("sketch", .str sk.name)], st))

/-- The `operation_map.get(operation, NewBodyFeatureOperation)` lookup
used by `extrude` (lines 320-327) and `revolve` (lines 377-384): any
unrecognized operation value falls back to the new-body operation. -/
def operationTypeOf (v : Value) : FeatureOperation :=
  match v with
  | .str "new_body" => .NewBody
  | .str "join" => .Join
  | .str "cut" => .Cut
  | .str "intersect" => .Intersect
  | _ => .NewBody

/-- `extrude` (lines 298-352): extrudes a profile of the last sketch,
appending a feature created with the looked-up operation. -/
def extrude (st : Host) (height profile_index operation direction : Value) :
    Except String (ResultMap × Host) :=
  wrapErr "Failed to extrude: " (do
    let d ← getDesign st
    let comp := d.rootComponent
    if comp.sketches.isEmpty then
      throw "No sketch available."
    let sk ← itemAt comp.sketches (comp.sketches.length - 1) "invalid sketch index"
    if sk.profiles = 0 then
      throw "No profiles found in sketch."
    let pidx ← asIndex profile_index
    if sk.profiles ≤ pidx then
      throw "invalid profile index"
    let opType := operationTypeOf operation
    let _ ← asNum height
    let _ ← checkFault st
    let fname := "Extrude" ++ toString (comp.features.length + 1)
    let st' := setComponent st d
      { comp with features := comp.features ++ [{ name := fname, op := some opType }] }
    pure ([("extrude_created", .bool true), ("height", height),
           ("operation", operation), ("direction", direction),
           ("feature_name", .str fname)], st'))

/-- `revolve` (lines 354-409). -/
def revolve (st : Host) (angle profile_index aox aoy aoz adx ady adz operation : Value) :
    Except String (ResultMap × Host) :=
  wrapErr "Failed to revolve: " (do
    let d ← getDesign st
    let comp := d.rootComponent
    if comp.sketches.isEmpty then
      throw "No sketch available."
    let sk ← itemAt comp.sketches (comp.sketches.length - 1) "invalid sketch index"
    if sk.profiles = 0 then
      throw "No profiles found in sketch."
    let pidx ← asIndex profile_index
    if sk.profiles ≤ pidx then
      throw "invalid profile index"
    let opType := operationTypeOf operation
    let _ ← asNum aox
    let _ ← asNum aoy
    let _ ← asNum aoz
    let _ ← asNum adx
    let _ ← asNum ady
    let _ ← asNum adz
    let _ ← checkFault st
    let fname := "Revolve" ++ toString (comp.features.length + 1)
    let st' := setComponent st d
      { comp with features := comp.features ++ [{ name := fname, op := some opType }] }
    pure ([("revolve_created", .bool true), ("angle", angle),
           ("operation", operation), ("feature_name", .str fname)], st'))

/-- The edge-selection chain of `fillet` (lines 426-435): `all` collects
every edge, `top` the edges whose bounding-box max-Z exceeds the body
max-Z minus 0.001, and every other value collects nothing (no further
branch adds edges). -/
def filletEdgeSelection (sel : Value) (body : Body) : List Edge :=
  if pyEqStr sel "all" then body.edges
  else if pyEqStr sel "top" then
    body.edges.filter (fun e => body.bbox.maxP.z - 1/1000 < e.bbox.maxP.z)
  else []

/-- `fillet` (lines 411-451). -/
def fillet (st : Host) (radius body_index edge_selection : Value) :
    Except String (ResultMap × Host) :=
  wrapErr "Failed to create fillet: " (do
    let d ← getDesign st
    let comp := d.rootComponent
    if comp.bodies.isEmpty then
      throw "No bodies available for filleting."
    let bidx ← asIndex body_index
    let body ← itemAt comp.bodies bidx "invalid body index"
    let edges := filletEdgeSelection edge_selection body
    let _ ← asNum radius
    let _ ← checkFault st
    let fname := "Fillet" ++ toString (comp.features.length + 1)
    let st' := setComponent st d
      { comp with features := comp.features ++ [{ name := fname, op := none }] }
    pure ([("fillet_created", .bool true), ("radius", radius),
           ("edges_count", .num edges.length), ("feature_name", .str fname)], st'))

/-- The edge-selection chain of `chamfer` (lines 468-472): only `all` is
implemented; every other value collects nothing. -/
def chamferEdgeSelection (sel : Value) (body : Body) : List Edge :=
  if pyEqStr sel "all" then body.edges else []

/-- `chamfer` (lines 453-488). -/
def chamfer (st : Host) (distance body_index edge_selection : Value) :
    Except String (ResultMap × Host) :=
  wrapErr "Failed to create chamfer: " (do
    let d ← getDesign st
    let comp := d.rootComponent
    if comp.bodies.isEmpty then
      throw "No bodies available for chamfering."
    let bidx ← asIndex body_index
    let body ← itemAt comp.bodies bidx "invalid body index"
    let edges := chamferEdgeSelection edge_selection body
    let _ ← asNum distance
    let _ ← checkFault st
    let fname := "Chamfer" ++ toString (comp.features.length + 1)
    let st' := setComponent st d
      { comp with features := comp.features ++ [{ name := fname, op := none }] }
    pure ([("chamfer_created", .bool true), ("distance", distance),
           ("edges_count", .num edges.length), ("feature_name", .str fname)], st'))

/-- The face-selection chain of `shell` (lines 505-511): only `top` is
implemented; every other value collects nothing. -/
def shellFaceSelection (sel : Value) (body : Body) : List Face :=
  if pyEqStr sel "top" then
    body.faces.filter (fun f => body.bbox.maxP.z - 1/1000 < f.bbox.maxP.z)
  else []

/-- `shell` (lines 490-539). -/
def shell (st : Host) (thickness body_index face_selection : Value) :
    Except String (ResultMap × Host) :=
  wrapErr "Failed to create shell: " (do
    let d ← getDesign st
    let comp := d.rootComponent
    if comp.bodies.isEmpty then
      throw "No bodies available for shelling."
    let bidx ← asIndex body_index
    let body ← itemAt comp.bodies bidx "invalid body index"
    let faces := shellFaceSelection face_selection body
    let _ ← asNum thickness
    let _ ← checkFault st
    let fname := "Shell" ++ toString (comp.features.length + 1)
    let st' := setComponent st d
      { comp with features := comp.features ++ [{ name := fname, op := none }] }
    pure ([("shell_created", .bool true), ("thickness", thickness),
           ("faces_removed", .num faces.length), ("feature_name", .str fname)], st'))

/-- `mirror` (lines 541-578). -/
def mirror (st : Host) (mirror_plane body_index : Value) :
    Except String (ResultMap × Host) :=
  wrapErr "Failed to create mirror: " (do
    let d ← getDesign st
    let comp := d.rootComponent
    if comp.bodies.isEmpty then
      throw "No bodies available for mirroring."
    let bidx ← asIndex body_index
    let _ ← itemAt comp.bodies bidx "invalid body index"
    let _ ← checkFault st
    let fname := "Mirror" ++ toString (comp.features.length + 1)
    let st' := setComponent st d
      { comp with features := comp.features ++ [{ name := fname, op := none }] }
    pure ([("mirror_created", .bool true), ("mirror_plane", mirror_plane),
           ("feature_name", .str fname)], st'))

/-! ## Keyword binding wrappers (the `handler(**params)` call sites) -/

/-- A registered handler: keyword parameters and host state to an
exception or a result with the updated state. -/
abbrev HandlerFn := Params → Host → Except String (ResultMap × Host)

def get_scene_info_h : HandlerFn := fun params st => do
  let _ ← checkKeys "get_scene_info" [] params
  pure (get_scene_info st, st)

def get_object_info_h : HandlerFn := fun params st => do
  let _ ← checkKeys "get_object_info" ["name"] params
  let name ← reqParam "get_object_info" "name" params
  pure (get_object_info st name, st)

def execute_code_h : HandlerFn := fun params st => do
  let _ ← checkKeys "execute_code" ["code"] params
  let code ← reqParam "execute_code" "code" params
  execute_code st code

def create_sketch_h : HandlerFn := fun params st => do
  let _ ← checkKeys "create_sketch" ["plane"] params
  create_sketch st (getParamD params "plane" (.str "xy"))

def draw_rectangle_h : HandlerFn := fun params st => do
  let _ ← checkKeys "draw_rectangle" ["width", "height", "origin_x", "origin_y", "origin_z"] params
  let width ← reqParam "draw_rectangle" "width" params
  let height ← reqParam "draw_rectangle" "height" params
  draw_rectangle st width height (getParamD params "origin_x" (.num 0))
    (getParamD params "origin_y" (.num 0)) (getParamD params "origin_z" (.num 0))

def draw_circle_h : HandlerFn := fun params st => do
  let _ ← checkKeys "draw_circle" ["radius", "center_x", "center_y", "center_z"] params
  let radius ← reqParam "draw_circle" "radius" params
  draw_circle st radius (getParamD params "center_x" (.num 0))
    (getParamD params "center_y" (.num 0)) (getParamD params "center_z" (.num 0))

def draw_line_h : HandlerFn := fun params st => do
  let _ ← checkKeys "draw_line" ["start_x", "start_y", "end_x", "end_y", "start_z", "end_z"] params
  let sx ← reqParam "draw_line" "start_x" params
  let sy ← reqParam "draw_line" "start_y" params
  let ex ← reqParam "draw_line" "end_x" params
  let ey ← reqParam "draw_line" "end_y" params
  draw_line st sx sy ex ey (getParamD params "start_z" (.num 0))
    (getParamD params "end_z" (.num 0))

def extrude_h : HandlerFn := fun params st => do
  let _ ← checkKeys "extrude" ["height", "profile_index", "operation", "direction"] params
  let height ← reqParam "extrude" "height" params
  extrude st height (getParamD params "profile_index" (.num 0))
    (getParamD params "operation" (.str "new_body"))
    (getParamD params "direction" (.str "positive"))

def revolve_h : HandlerFn := fun params st => do
  let _ ← checkKeys "revolve"
    ["angle", "profile_index", "axis_origin_x", "axis_origin_y", "axis_origin_z",
     "axis_direction_x", "axis_direction_y", "axis_direction_z", "operation"] params
  let angle ← reqParam "revolve" "angle" params
  revolve st angle (getParamD params "profile_index" (.num 0))
    (getParamD params "axis_origin_x" (.num 0))
    (getParamD params "axis_origin_y" (.num 0))
    (getParamD params "axis_origin_z" (.num 0))
    (getParamD params "axis_direction_x" (.num 1))
    (getParamD params "axis_direction_y" (.num 0))
    (getParamD params "axis_direction_z" (.num 0))
    (getParamD params "operation" (.str "new_body"))

def fillet_h : HandlerFn := fun params st => do
  let _ ← checkKeys "fillet" ["radius", "body_index", "edge_selection"] params
  let radius ← reqParam "fillet" "radius" params
  fillet st radius (getParamD params "body_index" (.num 0))
    (getParamD params "edge_selection" (.str "all"))

def chamfer_h : HandlerFn := fun params st => do
  let _ ← checkKeys "chamfer" ["distance", "body_index", "edge_selection"] params
  let distance ← reqParam "chamfer" "distance" params
  chamfer st distance (getParamD params "body_index" (.num 0))
    (getParamD params "edge_selection" (.str "all"))

def shell_h : HandlerFn := fun params st => do
  let _ ← checkKeys "shell" ["thickness", "body_index", "face_selection"] params
  let thickness ← reqParam "shell" "thickness" params
  shell st thickness (getParamD params "body_index" (.num 0))
    (getParamD params "face_selection" (.str "top"))

def mirror_h : HandlerFn := fun params st => do
  let _ ← checkKeys "mirror" ["mirror_plane", "body_index"] params
  let mirror_plane ← reqParam "mirror" "mirror_plane" params
  mirror st mirror_plane (getParamD params "body_index" (.num 0))

/-! ## The dispatcher (`execute_command` / `_execute_command_internal`) -/

/-- A wire command: `{type, params}` (spec section 3). -/
structure Command where
  type : Option String
  params : Params

/-- The handler dict of `_execute_command_internal` (lines 38-52). -/
def handlers : List (String × HandlerFn) :=
  [("get_scene_info", get_scene_info_h),
   ("get_object_info", get_object_info_h),
   ("execute_code", execute_code_h),
   ("create_sketch", create_sketch_h),
   ("draw_rectangle", draw_rectangle_h),
   ("draw_circle", draw_circle_h),
   ("draw_line", draw_line_h),
   ("extrude", extrude_h),
   ("revolve", revolve_h),
   ("fillet", fillet_h),
   ("chamfer", chamfer_h),
   ("shell", shell_h),
   ("mirror", mirror_h)]

/-- `handlers.get(cmd_type)` where `cmd_type = command.get("type")`. -/
def handlerFor (t : Option String) : Option HandlerFn :=
  t.bind (fun s => List.lookup s handlers)

/-- Python `str` of the `type` field as interpolated into the unknown
command message (`None` when the key is absent). -/
def typeRepr : Option String → String
  | some s => s
  | none => "None"

/-- `_execute_command_internal` (lines 32-66): routes to the handler,
converting a handler exception into an error response and an unknown type
into `Unknown command type: <type>`. -/
def execute_command_internal (cmd : Command) (st : Host) : Response × Host :=
  match handlerFor cmd.type with
  | some h =>
      match h cmd.params st with
      | .ok (res, st') => (mkSuccess res, st')
      | .error m => (mkError m, st)
  | none => (mkError ("Unknown command type: " ++ typeRepr cmd.type), st)

/-- `execute_command` (lines 23-30): the outer `try/except`; the internal
dispatch is total in the model, so it coincides with it. -/
def execute_command (cmd : Command) (st : Host) : Response × Host :=
  execute_command_internal cmd st

/-! ## JSON framing (`json.loads`-based message-boundary detection)

Both peers detect a message boundary by attempting to parse the
accumulated bytes as one complete JSON value.  The wire only ever carries
flat JSON objects, so the parse attempt is modelled by a character
scanner that accepts exactly the buffers consisting of one complete
brace-balanced object (string contents and escapes respected, optional
surrounding whitespace) and rejects every strict prefix and every buffer
with trailing non-whitespace — matching `json.loads`, which raises both
on truncated input and on extra data. -/

/-- The opening-brace character. -/
def obr : Char := Char.ofNat 123

/-- The closing-brace character. -/
def cbr : Char := Char.ofNat 125

/-- The opening-bracket character. -/
def obk : Char := Char.ofNat 91

/-- The closing-bracket character. -/
def cbk : Char := Char.ofNat 93

/-- The double-quote character. -/
def dq : Char := Char.ofNat 34

/-- The backslash character. -/
def bsl : Char := Char.ofNat 92

/-- JSON whitespace. -/
def isWs (c : Char) : Bool :=
  (c = ' ' : Bool) || (c = '\t' : Bool) || (c = '\n' : Bool) || (c = '\r' : Bool)

/-- Scanner state for the framing check. -/
structure ScanSt where
  started : Bool
  depth : Nat
  inStr : Bool
  esc : Bool
  closed : Bool
  bad : Bool
deriving DecidableEq

/-- The initial scanner state. -/
def scanInit : ScanSt :=
  { started := false, depth := 0, inStr := false, esc := false,
    closed := false, bad := false }

/-- One character of the framing scan. -/
def scanStep (st : ScanSt) (c : Char) : ScanSt :=
  if st.bad then st
  else if st.closed then
    (if isWs c then st else { st with bad := true })
  else if st.inStr then
    (if st.esc then { st with esc := false }
     else if c = bsl then { st with esc := true }
     else if c = dq then { st with inStr := false }
     else st)
  else if !st.started then
    (if isWs c then st
     else if c = obr then { st with started := true, depth := 1 }
     else { st with bad := true })
  else
    (if c = dq then { st with inStr := true }
     else if c = obr ∨ c = obk then { st with depth := st.depth + 1 }
     else if c = cbr then
       (if st.depth = 1 then { st with depth := 0, closed := true }
        else { st with depth := st.depth - 1 })
     else if c = cbk then
       (if st.depth ≤ 1 then { st with bad := true }
        else { st with depth := st.depth - 1 })
     else st)

/-- Scans a buffer. -/
def scanList (st : ScanSt) (s : List Char) : ScanSt :=
  s.foldl scanStep st

/-- Whether `json.loads` succeeds on the buffer, for the flat-object
payloads the protocol carries: the object closed and nothing but
whitespace followed. -/
def flatJsonComplete (s : List Char) : Bool :=
  (scanList scanInit s).closed && !(scanList scanInit s).bad

/-! ## `Fusion360Connection.receive_full_response`
(`fusion360_connection.py`, lines 50-99)

The socket is modelled by the script of `recv` results it will deliver:
each entry is one chunk; an empty entry is a zero-length read (peer
closed); exhausting the script is a `socket.timeout`. -/

/-- The chunked-receive loop: append each chunk, return as soon as the
accumulator parses; on a zero-length read or timeout, fall through to the
final parse attempt on whatever was accumulated. -/
def receiveLoop : List (List Char) → List Char → Except String (List Char)
  | [], acc =>
      if acc.isEmpty then .error "No data received"
      else if flatJsonComplete acc then .ok acc
      else .error "Incomplete JSON response received"
  | chunk :: rest, acc =>
      if chunk.isEmpty then
        (if acc.isEmpty then .error "Connection closed before receiving any data"
         else if flatJsonComplete acc then .ok acc
         else .error "Incomplete JSON response received")
      else
        let acc' := acc ++ chunk
        if flatJsonComplete acc' then .ok acc'
        else receiveLoop rest acc'

/-- `receive_full_response` over a delivery script. -/
def receive_full_response (reads : List (List Char)) : Except String (List Char) :=
  receiveLoop reads []

/-! ## `Fusion360MCPServer._handle_client` (`socket_server.py`, lines
117-167): one iteration of the per-client framing loop. -/

/-- One `recv` iteration of the client handler: append the chunk to the
buffer; if the whole buffer parses as one JSON value, dispatch it and
reset the buffer, otherwise keep everything and wait for more data.
Returns the dispatched payload (if any) and the new buffer. -/
def handle_client_chunk (buffer data : List Char) : Option (List Char) × List Char :=
  let buf := buffer ++ data
  if flatJsonComplete buf then (some buf, []) else (none, buf)

/-! ## `Fusion360Connection.connect` / `send_command`
(`fusion360_connection.py`, lines 25-38 and 101-150)

The transport is abstracted by the outcome one round trip produces:
either a parsed response (status/result/message of the received JSON), a
timeout, a connection-level error, undecodable bytes, or another
exception. -/

/-- The connection handle: `{host, port, socket-or-none}`. -/
structure Conn where
  host : String
  port : Nat
  sock : Option Nat
deriving DecidableEq

/-- `connect` (lines 25-38): a no-op when a socket is cached; otherwise
opens a socket when the world allows, clearing the handle on failure. -/
def connect (c : Conn) (connectOk : Bool) : Conn × Bool :=
  if c.sock.isSome then (c, true)
  else if connectOk then ({ c with sock := some 0 }, true)
  else ({ c with sock := none }, false)

/-- What one send/receive round trip does, as seen by `send_command`. -/
inductive RecvOutcome where
  | ok (status : Option String) (result : Option Value) (message : Option String)
  | timeout
  | connReset (msg : String)
  | badJson (msg : String)
  | otherErr (msg : String)

/-- The environment of a single `send_command` call. -/
structure CallWorld where
  connectOk : Bool
  outcome : RecvOutcome

/-- `send_command` (lines 101-150): lazily connects, then classifies the
round-trip outcome.  A timeout, a connection-level error, any other
exception, and a well-formed error response all clear the cached socket;
only the undecodable-JSON branch leaves it in place. -/
def send_command (c : Conn) (w : CallWorld) : Conn × Except String Value :=
  let c1 := (connect c w.connectOk).1
  if !(connect c w.connectOk).2 then (c1, .error "Not connected to Fusion360")
  else
    match w.outcome with
    | .ok status result message =>
        if status = some "error" then
          ({ c1 with sock := none },
           .error ("Communication error with Fusion360: "
                     ++ message.getD "Unknown error from Fusion360"))
        else (c1, .ok (result.getD (.obj [])))
    | .timeout =>
        ({ c1 with sock := none },
         .error "Timeout waiting for Fusion360 response - try simplifying your request")
    | .connReset m =>
        ({ c1 with sock := none }, .error ("Connection to Fusion360 lost: " ++ m))
    | .badJson m => (c1, .error ("Invalid response from Fusion360: " ++ m))
    | .otherErr m =>
        ({ c1 with sock := none }, .error ("Communication error with Fusion360: " ++ m))

/-! ## Script-generator lookup helpers (`script_generator.py`) -/

/-- `_get_operation_code` (lines 128-136). -/
def get_operation_code (operation : String) : String :=
  match operation with
  | "new_body" => "NewBody"
  | "join" => "Join"
  | "cut" => "Cut"
  | "intersect" => "Intersect"
  | _ => "NewBody"

/-- `_get_edge_collection_code` (lines 151-172). -/
def get_edge_collection_code (edge_selection : String) : String :=
  match edge_selection with
  | "all" => "for edge in body.edges:\n    edgeCollection.add(edge)"
  | "top" =>
      "for edge in body.edges:\n    if edge.boundingBox.maxPoint.z > (body.boundingBox.maxPoint.z - 0.001):\n        edgeCollection.add(edge)"
  | "bottom" =>
      "for edge in body.edges:\n    if edge.boundingBox.minPoint.z < (body.boundingBox.minPoint.z + 0.001):\n        edgeCollection.add(edge)"
  | "vertical" =>
      "for edge in body.edges:\n    # Select edges that are approximately vertical\n    direction = edge.geometry.direction\n    if abs(direction.z) < 0.1:  # Nearly horizontal\n        edgeCollection.add(edge)"
  | _ => "for edge in body.edges:\n    edgeCollection.add(edge)"

/-- `_get_face_collection_code` (lines 175-197): the `face_map.get`
fallback is the `top` entry, not an all-faces collector. -/
def get_face_collection_code (face_selection : String) : String :=
  match face_selection with
  | "top" =>
      "for face in body.faces:\n    if face.boundingBox.maxPoint.z > (body.boundingBox.maxPoint.z - 0.001):\n        faceCollection.add(face)"
  | "bottom" =>
      "for face in body.faces:\n    if face.boundingBox.minPoint.z < (body.boundingBox.minPoint.z + 0.001):\n        faceCollection.add(face)"
  | "front" =>
      "for face in body.faces:\n    if face.boundingBox.maxPoint.y > (body.boundingBox.maxPoint.y - 0.001):\n        faceCollection.add(face)"
  | "back" =>
      "for face in body.faces:\n    if face.boundingBox.minPoint.y < (body.boundingBox.minPoint.y + 0.001):\n        faceCollection.add(face)"
  | "left" =>
      "for face in body.faces:\n    if face.boundingBox.minPoint.x < (body.boundingBox.minPoint.x + 0.001):\n        faceCollection.add(face)"
  | "right" =>
      "for face in body.faces:\n    if face.boundingBox.maxPoint.x > (body.boundingBox.maxPoint.x - 0.001):\n        faceCollection.add(face)"
  | _ =>
      "for face in body.faces:\n    if face.boundingBox.maxPoint.z > (body.boundingBox.maxPoint.z - 0.001):\n        faceCollection.add(face)"

/-! ## Concrete sample inputs used by witnesses and counterexamples -/

/-- A camera-less, fault-free host with the given design. -/
def mkHost (d : Option Design) : Host :=
  { design := d, camera := none, fault := none, codeRuns := fun _ => .ok "" }

/-- An empty design: no sketches, no bodies. -/
def emptyDesign : Design :=
  { name := "Doc1", productType := "DesignProductType",
    rootComponent := { name := "root", sketches := [], bodies := [],
                       features := [], occurrences := 0 },
    timeline := 0 }

/-- A host with an empty design (for the draw-before-sketch scenario). -/
def hostNoSketch : Host := mkHost (some emptyDesign)

/-- A host with no active design at all. -/
def hostNoDesign : Host := mkHost none

/-- A unit cube bounding box. -/
def unitBox : Box :=
  { minP := { x := 0, y := 0, z := 0 }, maxP := { x := 1, y := 1, z := 1 } }

/-- A top edge of the unit cube (max-Z at the body max-Z). -/
def topEdge : Edge :=
  { bbox := { minP := { x := 0, y := 0, z := 1 }, maxP := { x := 1, y := 0, z := 1 } } }

/-- A bottom edge of the unit cube (max-Z well under the body max-Z). -/
def bottomEdge : Edge :=
  { bbox := { minP := { x := 0, y := 0, z := 0 }, maxP := { x := 1, y := 0, z := 0 } } }

/-- A one-body sample: the unit cube with one top and one bottom edge. -/
def cubeBody : Body :=
  { name := "Body1", volume := 1, area := 6, material := none,
    isVisible := true, bbox := unitBox, edges := [topEdge, bottomEdge],
    faces := [], vertices := 8 }

/-- A design holding one sketch with one profile (ready to extrude). -/
def sketchDesign : Design :=
  { name := "Doc1", productType := "DesignProductType",
    rootComponent := { name := "root",
                       sketches := [{ name := "Sketch1", isVisible := true,
                                      profiles := 1, curves := 4, plane := some "xy" }],
                       bodies := [], features := [], occurrences := 0 },
    timeline := 1 }

/-- A host ready for the extrude scenario. -/
def hostWithProfile : Host := mkHost (some sketchDesign)

/-- The characters of a small flat JSON object payload,
`\x7b"status": "ok"\x7d`. -/
def samplePayload : List Char :=
  [obr, dq, 's', 't', 'a', 't', 'u', 's', dq, ':', ' ', dq, 'o', 'k', dq, cbr]

/-- A second flat JSON object, `\x7b"n": 2\x7d`, pipelined after the
first. -/
def samplePayload2 : List Char :=
  [obr, dq, 'n', dq, ':', ' ', '2', cbr]

/-- The `draw_rectangle` Command of the C4 scenario:
`width = 50`, `height = 30`. -/
def rectCmd : Command :=
  { type := some "draw_rectangle"
    params := [("width", .num 50), ("height", .num 30)] }

/-- The `extrude` Command of the C8 scenario: `height = 20`,
`operation = "bogus"`. -/
def extrudeBogusCmd : Command :=
  { type := some "extrude"
    params := [("height", .num 20), ("operation", .str "bogus")] }

/-- A `get_scene_info` Command with no parameters. -/
def sceneInfoCmd : Command := { type := some "get_scene_info", params := [] }

/-- A `get_object_info` Command for the given name value. -/
def objectInfoCmd (v : Value) : Command :=
  { type := some "get_object_info", params := [("name", v)] }

/-- A connection holding a cached socket. -/
def connSample : Conn := { host := "localhost", port := 9876, sock := some 5 }

/-- A call environment delivering a socket timeout. -/
def worldFail : CallWorld := { connectOk := true, outcome := .timeout }

/-- A call environment where connecting succeeds and the add-in answers
with an empty success result. -/
def worldOk : CallWorld :=
  { connectOk := true, outcome := .ok (some "success") (some (.obj [])) none }

/-! ## Scanner lemmas -/

theorem scanStep_of_bad (st : ScanSt) (c : Char) (h : st.bad = true) :
    scanStep st c = st := by
  simp [scanStep, h]

theorem scanList_of_bad (st : ScanSt) (s : List Char) (h : st.bad = true) :
    scanList st s = st := by
  induction s with
  | nil => rfl
  | cons c cs ih =>
      show scanList (scanStep st c) cs = st
      rw [scanStep_of_bad st c h]
      exact ih

theorem scanStep_closed (st : ScanSt) (c : Char) (h : st.closed = true) :
    (scanStep st c).closed = true := by
  unfold scanStep
  split_ifs <;> simp_all

theorem scanStep_closed_nonws_bad (st : ScanSt) (c : Char)
    (hc : st.closed = true) (hw : isWs c = false) :
    (scanStep st c).bad = true := by
  unfold scanStep
  split_ifs <;> simp_all

theorem scanList_closed_nonws_bad (st : ScanSt) (s : List Char)
    (hc : st.closed = true) (hw : ∃ c ∈ s, isWs c = false) :
    (scanList st s).bad = true := by
  induction s generalizing st with
  | nil => simp at hw
  | cons c cs ih =>
      rcases hw with ⟨d, hd, hdw⟩
      rcases List.mem_cons.mp hd with h1 | h2
      · subst h1
        have hb : (scanStep st d).bad = true := scanStep_closed_nonws_bad st d hc hdw
        show (scanList (scanStep st d) cs).bad = true
        rw [scanList_of_bad _ _ hb]
        exact hb
      · exact ih (scanStep st c) (scanStep_closed st c hc) ⟨d, h2, hdw⟩

theorem scanList_append (st : ScanSt) (a b : List Char) :
    scanList st (a ++ b) = scanList (scanList st a) b :=
  List.foldl_append _ _ _ _

theorem flatJsonComplete_nil : flatJsonComplete [] = false := rfl

/-- A strict prefix of a complete object payload that ends in the closing
brace never parses: the framing closes exactly at the final byte. -/
theorem prefix_not_complete (p q : List Char) (hq : q ≠ [])
    (hc : flatJsonComplete (p ++ q) = true)
    (hlast : (p ++ q).getLast? = some cbr) :
    flatJsonComplete p = false := by
  cases hfc : flatJsonComplete p with
  | false => rfl
  | true =>
      exfalso
      have hclosed : (scanList scanInit p).closed = true := by
        have h := hfc
        unfold flatJsonComplete at h
        exact (Bool.and_eq_true _ _ |>.mp h).1
      have hqlast : q.getLast? = some cbr := by
        rwa [List.getLast?_append_of_ne_nil p hq] at hlast
      have hmem : cbr ∈ q := by
        have hx : cbr ∈ q.getLast? := by rw [Option.mem_def]; exact hqlast
        obtain ⟨hh, he⟩ := List.mem_getLast?_eq_getLast hx
        rw [he]
        exact List.getLast_mem hh
      have hbad : (scanList scanInit (p ++ q)).bad = true := by
        rw [scanList_append]
        exact scanList_closed_nonws_bad _ _ hclosed ⟨cbr, hmem, by decide⟩
      unfold flatJsonComplete at hc
      rw [hbad] at hc
      simp at hc

/-- Delivering a complete object payload in any number of nonempty chunks
makes the receive loop return exactly the full payload. -/
theorem receiveLoop_delivers (chunks : List (List Char)) (acc : List Char)
    (hne : ∀ c ∈ chunks, c ≠ []) (h0 : chunks ≠ [])
    (hc : flatJsonComplete (acc ++ chunks.flatten) = true)
    (hlast : (acc ++ chunks.flatten).getLast? = some cbr) :
    receiveLoop chunks acc = .ok (acc ++ chunks.flatten) := by
  induction chunks generalizing acc with
  | nil => exact absurd rfl h0
  | cons c rest ih =>
      have hcne : c ≠ [] := hne c (List.mem_cons_self _ _)
      have hcemp : c.isEmpty = false := by
        cases c with
        | nil => exact absurd rfl hcne
        | cons a l => rfl
      cases hr : rest with
      | nil =>
          subst hr
          have hflat : (c :: ([] : List (List Char))).flatten = c := by simp
          rw [hflat] at hc hlast
          unfold receiveLoop
          rw [hcemp]
          simp only [Bool.false_eq_true, if_false, hc, if_true]
          simp [hflat]
      | cons c2 rest2 =>
          subst hr
          have hrf : (c2 :: rest2).flatten ≠ [] := by
            have h2 : c2 ≠ [] := hne c2 (by simp)
            simp only [List.flatten_cons]
            intro hh
            exact h2 (List.append_eq_nil.mp hh).1
          have hassoc : acc ++ (c :: c2 :: rest2).flatten
              = (acc ++ c) ++ (c2 :: rest2).flatten := by
            simp [List.flatten_cons]
          have hpre : flatJsonComplete (acc ++ c) = false := by
            apply prefix_not_complete (acc ++ c) (c2 :: rest2).flatten hrf
            · rw [← hassoc]; exact hc
            · rw [← hassoc]; exact hlast
          unfold receiveLoop
          rw [hcemp]
          simp only [Bool.false_eq_true, if_false, hpre]
          have hstep := ih (acc ++ c) (fun x hx => hne x (by simp [hx]))
            (by simp) (by rw [← hassoc]; exact hc) (by rw [← hassoc]; exact hlast)
          rw [hstep, hassoc]

/-- Helper: a key absent from every entry of an association list is not
found by `List.lookup`. -/
theorem lookup_eq_none_of_not_mem {β : Type} (t : String) (l : List (String × β))
    (h : ¬ t ∈ l.map (fun p => p.1)) : List.lookup t l = none := by
  induction l with
  | nil => rfl
  | cons a l ih =>
      have h1 : t ≠ a.1 := fun e => h (by simp [e])
      have h2 : ¬ t ∈ l.map (fun p => p.1) := fun hm => h (by simp [hm])
      cases a with
      | mk k v =>
          show List.lookup t ((k, v) :: l) = none
          rw [List.lookup_cons]
          rw [beq_eq_false_iff_ne.mpr h1]
          exact ih h2

/-- C1: every Response the dispatcher produces is two-valued and carries
exactly one of `result`/`message`: `status == "error"` iff `message` is
present and `result` absent, and `status == "success"` iff `result` is
present and `message` absent. -/
theorem c1_response_invariant (cmd : Command) (st : Host) :
    ((execute_command cmd st).1.status = "error" ↔
      (execute_command cmd st).1.message.isSome ∧ (execute_command cmd st).1.result = none) ∧
    ((execute_command cmd st).1.status = "success" ↔
      (execute_command cmd st).1.result.isSome ∧ (execute_command cmd st).1.message = none) ∧
    ((execute_command cmd st).1.result.isSome ↔ ¬ (execute_command cmd st).1.message.isSome) := by
  unfold execute_command execute_command_internal
  cases h1 : handlerFor cmd.type with
  | none => simp [mkError]
  | some f =>
      cases h2 : f cmd.params st with
      | ok p =>
          cases p with
          | mk res st2 => simp [h2, mkSuccess]
      | error m => simp [h2, mkError]

/-- C2: a Command whose `type` is not a registered tool name yields an
error Response whose message is `Unknown command type: <type>` with the
literal type string. -/
theorem c2_unknown_command_type (t : String) (params : Params) (st : Host)
    (h : ¬ t ∈ handlers.map (fun p => p.1)) :
    (execute_command { type := some t, params := params } st).1
      = mkError ("Unknown command type: " ++ t) := by
  have hl : List.lookup t handlers = none := lookup_eq_none_of_not_mem t handlers h
  unfold execute_command execute_command_internal handlerFor
  simp [hl, typeRepr]

/-- Witness for C2 at the concrete unregistered type `bogus_cmd`. -/
theorem c2_unknown_command_type_witness :
    ¬ "bogus_cmd" ∈ handlers.map (fun p => p.1) ∧
    (execute_command { type := some "bogus_cmd", params := [] } hostNoSketch).1
      = mkError "Unknown command type: bogus_cmd" :=
  ⟨by decide, c2_unknown_command_type "bogus_cmd" [] hostNoSketch (by decide)⟩

/-- C3 counterexample: in the add-in's `fillet`, the unknown strategy
`bogus` selects no edges at all on a body that has edges, not the
all-edges set the claim demands. -/
theorem c3_counterexample :
    filletEdgeSelection (.str "bogus") cubeBody = [] ∧
    filletEdgeSelection (.str "all") cubeBody = cubeBody.edges ∧
    cubeBody.edges ≠ [] ∧
    filletEdgeSelection (.str "bogus") cubeBody ≠ filletEdgeSelection (.str "all") cubeBody := by
  refine ⟨rfl, rfl, by decide, by decide⟩

/-- C3 (amended): only the script generator's edge-collection lookup
falls back to the `all` collector on an unknown strategy; the add-in's
`fillet` and `chamfer` handlers select the empty edge set for every
strategy outside the ones they implement, and the script generator's
face-collection lookup for `shell` falls back to `top`, not `all`. -/
theorem c3_unknown_selection_fallback :
    (∀ s : String, ¬ s ∈ ["all", "top", "bottom", "vertical"] →
        get_edge_collection_code s = get_edge_collection_code "all") ∧
    (∀ (v : Value) (b : Body), pyEqStr v "all" = false → pyEqStr v "top" = false →
        filletEdgeSelection v b = []) ∧
    (∀ (v : Value) (b : Body), pyEqStr v "all" = false →
        chamferEdgeSelection v b = []) ∧
    (∀ s : String, ¬ s ∈ ["top", "bottom", "front", "back", "left", "right"] →
        get_face_collection_code s = get_face_collection_code "top") := by
  refine ⟨?_, ?_, ?_, ?_⟩
  · intro s hs
    unfold get_edge_collection_code
    split
    · simp_all
    · simp_all
    · simp_all
    · simp_all
    · rfl
  · intro v b h1 h2
    unfold filletEdgeSelection
    rw [if_neg (by simp [h1]), if_neg (by simp [h2])]
  · intro v b h1
    unfold chamferEdgeSelection
    rw [if_neg (by simp [h1])]
  · intro s hs
    unfold get_face_collection_code
    split
    · simp_all
    · simp_all
    · simp_all
    · simp_all
    · simp_all
    · simp_all
    · rfl

/-- Witness for the amended C3 at the concrete unknown strategy `bogus`. -/
theorem c3_unknown_selection_fallback_witness :
    get_edge_collection_code "bogus" = get_edge_collection_code "all" ∧
    filletEdgeSelection (.str "bogus") cubeBody = [] ∧
    chamferEdgeSelection (.str "bogus") cubeBody = [] ∧
    get_face_collection_code "bogus" = get_face_collection_code "top" :=
  ⟨c3_unknown_selection_fallback.1 "bogus" (by decide),
   c3_unknown_selection_fallback.2.1 (.str "bogus") cubeBody rfl rfl,
   c3_unknown_selection_fallback.2.2.1 (.str "bogus") cubeBody rfl,
   c3_unknown_selection_fallback.2.2.2 "bogus" (by decide)⟩

/-- C4 counterexample: the draw-rectangle-before-sketch scenario produces
an error Response, but its message carries the handler's
`Failed to draw rectangle: ` wrapper, not the bare text the claim
states. -/
theorem c4_counterexample :
    (execute_command rectCmd hostNoSketch).1
      = mkError "Failed to draw rectangle: No sketch available. Create a sketch first." ∧
    (execute_command rectCmd hostNoSketch).1.message
      ≠ some "No sketch available. Create a sketch first." := by
  refine ⟨rfl, ?_⟩
  rw [show (execute_command rectCmd hostNoSketch).1.message
        = some "Failed to draw rectangle: No sketch available. Create a sketch first."
      from rfl]
  decide

/-- C4 (amended): the scenario produces exactly
`status == "error"` with message
`Failed to draw rectangle: No sketch available. Create a sketch first.`. -/
theorem c4_draw_rectangle_no_sketch (st : Host) (d : Design)
    (hd : st.design = some d) (hs : d.rootComponent.sketches = []) :
    (execute_command rectCmd st).1
      = mkError "Failed to draw rectangle: No sketch available. Create a sketch first." := by
  obtain ⟨dsn, cam, flt, runs⟩ := st
  simp only at hd
  subst hd
  obtain ⟨dn, dpt, comp, tl⟩ := d
  obtain ⟨cn, sks, bds, fts, occ⟩ := comp
  simp only at hs
  subst hs
  rfl

/-- Witness for the amended C4 at a host with a design but no sketch. -/
theorem c4_draw_rectangle_no_sketch_witness :
    (execute_command rectCmd hostNoSketch).1
      = mkError "Failed to draw rectangle: No sketch available. Create a sketch first." :=
  c4_draw_rectangle_no_sketch hostNoSketch emptyDesign rfl rfl

/-- C7: for selection strategy `top`, the selected edges are exactly the
edges of the body whose bounding-box max-Z exceeds the body's
bounding-box max-Z minus the fixed epsilon 0.001. -/
theorem c7_top_edge_selection (b : Body) (e : Edge) :
    e ∈ filletEdgeSelection (.str "top") b ↔
      e ∈ b.edges ∧ b.bbox.maxP.z - 1/1000 < e.bbox.maxP.z := by
  unfold filletEdgeSelection
  rw [if_neg (by decide), if_pos (by decide)]
  simp [List.mem_filter]

/-- Helper: `Except` bind on a success. -/
theorem bindOk {α β : Type} (a : α) (f : α → Except String β) :
    (Except.ok a : Except String α) >>= f = f a := rfl

/-- Helper: `Except` bind on a failure. -/
theorem bindErr {α β : Type} (m : String) (f : α → Except String β) :
    (Except.error m : Except String α) >>= f = Except.error m := rfl

/-- Helper: flattening a list of singletons is the identity. -/
theorem flatten_map_singleton {α : Type} (l : List α) :
    (l.map (fun c => [c])).flatten = l := by
  induction l with
  | nil => rfl
  | cons a l ih => simp [ih]

/-- C5: a complete flat JSON object payload is received identically
whether it arrives as a single read or split into 1-byte chunks: the
receive loop returns exactly the payload bytes in both cases. -/
theorem c5_chunked_receive_idempotent (payload : List Char)
    (hc : flatJsonComplete payload = true)
    (hlast : payload.getLast? = some cbr) :
    receive_full_response [payload] = .ok payload ∧
    receive_full_response (payload.map (fun c => [c])) = .ok payload := by
  have hpne : payload ≠ [] := by
    intro h
    rw [h, flatJsonComplete_nil] at hc
    exact Bool.false_ne_true hc
  constructor
  · have h := receiveLoop_delivers [payload] []
      (by intro x hx; simp at hx; rw [hx]; exact hpne) (by simp)
      (by simpa using hc) (by simpa using hlast)
    simpa [receive_full_response] using h
  · have hj : (payload.map (fun c => [c])).flatten = payload :=
      flatten_map_singleton payload
    have hmne : payload.map (fun c => [c]) ≠ [] := by
      simp [hpne]
    have h := receiveLoop_delivers (payload.map (fun c => [c])) []
      (by intro x hx; simp at hx; obtain ⟨a, _, hxa⟩ := hx; rw [← hxa]; simp) hmne
      (by rw [hj]; simpa using hc) (by rw [hj]; simpa using hlast)
    rw [hj] at h
    simpa [receive_full_response] using h

/-- Witness for C5 at the concrete payload. -/
theorem c5_chunked_receive_idempotent_witness :
    receive_full_response [samplePayload] = .ok samplePayload ∧
    receive_full_response (samplePayload.map (fun c => [c])) = .ok samplePayload :=
  c5_chunked_receive_idempotent samplePayload (by decide) (by decide)

/-- C6: when `send_command` fails with a socket-level error (timeout or
connection reset) the cached socket is cleared, and the next
`send_command` call against a reachable add-in reconnects on its own and
succeeds. -/
theorem c6_connection_resilience (c : Conn) (w w2 : CallWorld) (r : Value)
    (hfail : w.outcome = .timeout ∨ ∃ m, w.outcome = .connReset m)
    (hreach : c.sock.isSome = true ∨ w.connectOk = true)
    (h2c : w2.connectOk = true)
    (h2o : w2.outcome = .ok (some "success") (some r) none) :
    (∃ m, (send_command c w).2 = .error m) ∧
    (send_command c w).1.sock = none ∧
    (send_command (send_command c w).1 w2).2 = .ok r ∧
    (send_command (send_command c w).1 w2).1.sock = some 0 := by
  have hc2 : (connect c w.connectOk).2 = true := by
    rcases hreach with h | h
    · simp [connect, h]
    · by_cases hcs : c.sock.isSome = true
      · simp [connect, hcs]
      · simp [connect, hcs, h]
  have hsecond : ∀ c2 : Conn, c2.sock = none →
      send_command c2 w2 = ({ c2 with sock := some 0 }, .ok r) := by
    intro c2 hn
    unfold send_command connect
    rw [hn, h2o]
    simp [h2c]
  rcases hfail with hto | ⟨m, hcr⟩
  · have hfirst : send_command c w
        = ({ (connect c w.connectOk).1 with sock := none },
           .error "Timeout waiting for Fusion360 response - try simplifying your request") := by
      unfold send_command
      rw [hc2, hto]
      simp
    refine ⟨⟨_, by rw [hfirst]⟩, by rw [hfirst], ?_, ?_⟩
    · rw [hfirst, hsecond _ rfl]
    · rw [hfirst, hsecond _ rfl]
  · have hfirst : send_command c w
        = ({ (connect c w.connectOk).1 with sock := none },
           .error ("Connection to Fusion360 lost: " ++ m)) := by
      unfold send_command
      rw [hc2, hcr]
      simp
    refine ⟨⟨_, by rw [hfirst]⟩, by rw [hfirst], ?_, ?_⟩
    · rw [hfirst, hsecond _ rfl]
    · rw [hfirst, hsecond _ rfl]

/-- Witness for C6: a cached connection, a timeout, then a clean
round trip. -/
theorem c6_connection_resilience_witness :
    (∃ m, (send_command connSample worldFail).2 = .error m) ∧
    (send_command connSample worldFail).1.sock = none ∧
    (send_command (send_command connSample worldFail).1 worldOk).2 = .ok (Value.obj []) ∧
    (send_command (send_command connSample worldFail).1 worldOk).1.sock = some 0 :=
  c6_connection_resilience connSample worldFail worldOk (Value.obj [])
    (Or.inl rfl) (Or.inl rfl) rfl rfl

/-- C8: an `extrude` Command with the unregistered operation `bogus` is
not an error: the operation-map lookup normalizes it to the new-body
operation (in both the add-in and the script generator) and the extrude
proceeds, appending a new-body feature. -/
theorem c8_extrude_bogus_operation (st : Host) (d : Design) (s : Sketch)
    (hd : st.design = some d)
    (hs : d.rootComponent.sketches.getLast? = some s)
    (hp : 0 < s.profiles)
    (hf : st.fault = none) :
    operationTypeOf (.str "bogus") = .NewBody ∧
    get_operation_code "bogus" = "NewBody" ∧
    (execute_command extrudeBogusCmd st).1.status = "success" ∧
    (execute_command extrudeBogusCmd st).2.design
      = some { d with rootComponent := { d.rootComponent with
          features := d.rootComponent.features
            ++ [{ name := "Extrude" ++ toString (d.rootComponent.features.length + 1),
                  op := some .NewBody }] } } := by
  obtain ⟨dsn, cam, flt, runs⟩ := st
  simp only at hd hf
  subst hd
  subst hf
  have hne : d.rootComponent.sketches ≠ [] := by
    intro h
    rw [h] at hs
    simp at hs
  have hemp : d.rootComponent.sketches.isEmpty = false := by
    simpa [List.isEmpty_iff] using hne
  have hitem : itemAt d.rootComponent.sketches (d.rootComponent.sketches.length - 1)
      "invalid sketch index" = .ok s := by
    unfold itemAt
    rw [← List.getLast?_eq_getElem?, hs]
  have hx : extrude (Host.mk (some d) cam none runs)
        (.num 20) (.num 0) (.str "bogus") (.str "positive")
      = .ok ([("extrude_created", .bool true), ("height", .num 20),
              ("operation", .str "bogus"), ("direction", .str "positive"),
              ("feature_name", .str ("Extrude" ++ toString (d.rootComponent.features.length + 1)))],
             Host.mk (some { d with rootComponent := { d.rootComponent with
                 features := d.rootComponent.features
                   ++ [{ name := "Extrude" ++ toString (d.rootComponent.features.length + 1),
                         op := some .NewBody }] } }) cam none runs) := by
    unfold extrude
    simp [wrapErr, getDesign, bindOk, hemp, hitem, hp.ne', Nat.le_zero,
      asIndex, asNum, checkFault, operationTypeOf, setComponent]
    rw [if_neg hne]
  have hcall : execute_command extrudeBogusCmd (Host.mk (some d) cam none runs)
      = (match extrude_h extrudeBogusCmd.params (Host.mk (some d) cam none runs) with
         | .ok (res, st2) => (mkSuccess res, st2)
         | .error m => (mkError m, Host.mk (some d) cam none runs)) := rfl
  have hh : extrude_h extrudeBogusCmd.params (Host.mk (some d) cam none runs)
      = extrude (Host.mk (some d) cam none runs)
          (.num 20) (.num 0) (.str "bogus") (.str "positive") := rfl
  refine ⟨rfl, rfl, ?_, ?_⟩
  · rw [hcall, hh, hx]
    rfl
  · rw [hcall, hh, hx]

/-- Witness for C8 at a host holding one sketch with one profile. -/
theorem c8_extrude_bogus_operation_witness :
    operationTypeOf (.str "bogus") = .NewBody ∧
    get_operation_code "bogus" = "NewBody" ∧
    (execute_command extrudeBogusCmd hostWithProfile).1.status = "success" ∧
    (execute_command extrudeBogusCmd hostWithProfile).2.design
      = some { sketchDesign with rootComponent := { sketchDesign.rootComponent with
          features := sketchDesign.rootComponent.features
            ++ [{ name := "Extrude" ++ toString (sketchDesign.rootComponent.features.length + 1),
                  op := some .NewBody }] } } :=
  c8_extrude_bogus_operation hostWithProfile sketchDesign
    { name := "Sketch1", isVisible := true, profiles := 1, curves := 4, plane := some "xy" }
    rfl rfl (by decide) rfl

/-- C9: the query handlers `get_scene_info` and `get_object_info` never
yield an error Response under a well-formed invocation: every internal
failure (missing design, host API fault) is caught and returned as a
result mapping carrying an `error` key, which the dispatcher wraps with
`status == "success"`. -/
theorem c9_query_handlers_never_error (st : Host) (v : Value) :
    (execute_command sceneInfoCmd st).1.status = "success" ∧
    (execute_command (objectInfoCmd v) st).1.status = "success" ∧
    (st.design = none →
      ("error", Value.str "No active design") ∈ get_scene_info st ∧
      ("error", Value.str "No active design") ∈ get_object_info st v) ∧
    (∀ d m, st.design = some d → st.fault = some m →
      ("error", Value.str m) ∈ get_scene_info st ∧
      ("error", Value.str m) ∈ get_object_info st v) := by
  refine ⟨rfl, rfl, ?_, ?_⟩
  · intro hd
    constructor
    · unfold get_scene_info
      rw [hd]
      simp
    · unfold get_object_info
      rw [hd]
      simp
  · intro d m hd hf
    constructor
    · unfold get_scene_info
      rw [hd, hf]
      simp
    · unfold get_object_info
      rw [hd, hf]
      simp

/-- Witness for C9 at a host with no active design. -/
theorem c9_query_handlers_never_error_witness :
    (execute_command sceneInfoCmd hostNoDesign).1.status = "success" ∧
    ("error", Value.str "No active design") ∈ get_scene_info hostNoDesign ∧
    ("error", Value.str "No active design") ∈ get_object_info hostNoDesign (.str "Body1") := by
  have h := c9_query_handlers_never_error hostNoDesign (.str "Body1")
  exact ⟨h.1, (h.2.2.1 rfl).1, (h.2.2.1 rfl).2⟩

/-- C10 counterexample: two pipelined commands arriving in one read are
not handled by parsing the first and discarding the rest — the parse of
the combined buffer fails, nothing is dispatched, and the whole buffer
(both commands) is retained. -/
theorem c10_counterexample :
    flatJsonComplete samplePayload = true ∧
    handle_client_chunk [] (samplePayload ++ samplePayload2)
      = (none, samplePayload ++ samplePayload2) ∧
    handle_client_chunk [] (samplePayload ++ samplePayload2)
      ≠ (some samplePayload, []) := by
  refine ⟨by decide, rfl, by decide⟩

/-- C10 (amended): the buffer is reset to empty exactly when the whole
buffer parses as one complete JSON value (so at most one Command is
dispatched per successful parse); but bytes following a complete JSON
value in the same chunk are not discarded — the combined parse fails, no
Command is dispatched, and the full buffer is retained. -/
theorem c10_buffer_reset_on_parse :
    (∀ buffer data : List Char, flatJsonComplete (buffer ++ data) = true →
        handle_client_chunk buffer data = (some (buffer ++ data), [])) ∧
    (∀ p q : List Char, flatJsonComplete p = true → (∃ c ∈ q, isWs c = false) →
        handle_client_chunk [] (p ++ q) = (none, p ++ q)) := by
  constructor
  · intro buffer data h
    simp [handle_client_chunk, h]
  · intro p q hp hq
    have hclosed : (scanList scanInit p).closed = true := by
      unfold flatJsonComplete at hp
      exact (Bool.and_eq_true _ _ |>.mp hp).1
    have hbad : (scanList scanInit (p ++ q)).bad = true := by
      rw [scanList_append]
      exact scanList_closed_nonws_bad _ _ hclosed hq
    have hfc : flatJsonComplete (p ++ q) = false := by
      unfold flatJsonComplete
      rw [hbad]
      simp
    simp [handle_client_chunk, hfc]

/-- Witness for the amended C10: a single command resets the buffer; a
pipelined pair is kept whole with nothing dispatched. -/
theorem c10_buffer_reset_on_parse_witness :
    handle_client_chunk [] samplePayload = (some samplePayload, []) ∧
    handle_client_chunk [] (samplePayload ++ samplePayload2)
      = (none, samplePayload ++ samplePayload2) := by
  constructor
  · have h := c10_buffer_reset_on_parse.1 [] samplePayload (by decide)
    simpa using h
  · exact c10_buffer_reset_on_parse.2 samplePayload samplePayload2 (by decide)
      ⟨obr, by decide, by decide⟩

end F360
